import Mathlib

/-!
Verification of the `common-mcp-server` OAuth gateway (`src/common_mcp_server/oauth.py`)
against its natural-language specification.

The Python module defines an immutable `OAuthRouterConfig` dataclass and a FastAPI
router with seven routes: the two well-known discovery documents, the authorize
redirect proxy, the token proxy, dynamic client registration, the userinfo proxy and
a CORS preflight handler.  Each handler is a pure function of the configuration and
the incoming request, except that the token and userinfo proxies perform one upstream
HTTP call; those calls are modelled here as oracles (functions from the call's
arguments — URL, payload, headers, timeout in seconds — to an abstract result that is
either a status/body pair or a transport-level request error, mirroring
`httpx.RequestError`).
-/

namespace CommonMcpServer

/-- JSON values, used for request and response bodies.  Numbers are modelled as
integers; no claim depends on fractional numeric payloads. -/
inductive Json where
  | null : Json
  | bool (b : Bool) : Json
  | num (n : Int) : Json
  | str (s : String) : Json
  | arr (xs : List Json) : Json
  | obj (fields : List (String × Json)) : Json

/-- Lookup of a key in a JSON object's field list: Python `dict.get(k)` returns the
value of the first binding of `k`, or `None`. -/
def lookupField (fields : List (String × Json)) (k : String) : Option Json :=
  match fields with
  | [] => none
  | (k', v) :: rest => if k' = k then some v else lookupField rest k

/-- Python `body.get(k, default)`. -/
def getOr (fields : List (String × Json)) (k : String) (dflt : Json) : Json :=
  (lookupField fields k).getD dflt

/-- Field access on an arbitrary JSON value: `none` unless the value is an object
holding the key. -/
def Json.getField : Json → String → Option Json
  | .obj fields, k => lookupField fields k
  | _, _ => none

/-- Whether a JSON value is an object.  In Python, calling `.get` on a parsed JSON
value raises `AttributeError` exactly when the value is not a `dict`. -/
def Json.isObj : Json → Bool
  | .obj _ => true
  | _ => false

/-- `OAuthRouterConfig` from `oauth.py`: immutable configuration constructed once,
shared read-only by all handlers. -/
structure OAuthRouterConfig where
  resource_url : String
  keycloak_url : String
  keycloak_realm : String
  keycloak_client_id : String
  service_name : String := "Originate Service"
deriving DecidableEq, Repr

/-- `OAuthRouterConfig.keycloak_base`: the Keycloak realm base URL. -/
def OAuthRouterConfig.keycloak_base (c : OAuthRouterConfig) : String :=
  c.keycloak_url ++ "/realms/" ++ c.keycloak_realm

/-- `OAuthRouterConfig.keycloak_auth_url`: the Keycloak authorization endpoint. -/
def OAuthRouterConfig.keycloak_auth_url (c : OAuthRouterConfig) : String :=
  c.keycloak_base ++ "/protocol/openid-connect/auth"

/-- `OAuthRouterConfig.keycloak_token_url`: the Keycloak token endpoint. -/
def OAuthRouterConfig.keycloak_token_url (c : OAuthRouterConfig) : String :=
  c.keycloak_base ++ "/protocol/openid-connect/token"

/-- `OAuthRouterConfig.keycloak_userinfo_url`: the Keycloak userinfo endpoint. -/
def OAuthRouterConfig.keycloak_userinfo_url (c : OAuthRouterConfig) : String :=
  c.keycloak_base ++ "/protocol/openid-connect/userinfo"

/-- `OAuthRouterConfig.keycloak_jwks_url`: the Keycloak JWKS endpoint. -/
def OAuthRouterConfig.keycloak_jwks_url (c : OAuthRouterConfig) : String :=
  c.keycloak_base ++ "/protocol/openid-connect/certs"

/-- A response body: either raw bytes relayed verbatim from upstream
(`fastapi.Response(content=...)`), or a JSON document (`JSONResponse`). -/
inductive Body where
  | raw (content : String) : Body
  | json (j : Json) : Body

/-- An HTTP response as produced by a handler.  `media_type` and logging are not
modelled: they do not affect status, body bytes or headers relevant to any claim. -/
structure HttpResponse where
  status_code : Nat
  body : Body
  headers : List (String × String) := []

/-- Result of one upstream HTTP call made through `httpx`: either a response with a
status code and raw body bytes, or a transport failure (`httpx.RequestError`, which
covers timeouts and connection errors) carrying the exception text. -/
inductive UpstreamResult where
  | success (status_code : Nat) (content : String) : UpstreamResult
  | requestError (msg : String) : UpstreamResult

/-- Oracle for `httpx.AsyncClient.post url (data) (headers) (timeout-in-seconds)`. -/
abbrev PostOracle :=
  String → List (String × String) → List (String × String) → Nat → UpstreamResult

/-- Oracle for `httpx.AsyncClient.get url (headers) (timeout-in-seconds)`. -/
abbrev GetOracle := String → List (String × String) → Nat → UpstreamResult

/-- Python `s.startswith(p)`, computed on the underlying character lists. -/
def strStartsWith (s p : String) : Bool :=
  p.data.isPrefixOf s.data

/-- Python truthiness of an optional string header value: `None` and `""` are falsy. -/
def pyTruthy : Option String → Bool
  | none => false
  | some s => !(s == "")

/-- The incoming request data a discovery handler can see.  The Python handlers use
the request object only to log the client host, which does not influence the
response. -/
structure Request where
  client_host : Option String := none
deriving DecidableEq, Repr

/-- The `/.well-known/oauth-authorization-server` handler (RFC 8414 metadata).
Direct transcription of the `metadata` dict built in `authorization_server_metadata`. -/
def authorization_server_metadata (config : OAuthRouterConfig) (_request : Request) :
    HttpResponse :=
  let metadata : Json := .obj
    [ ("issuer", .str config.keycloak_base)
    , ("authorization_endpoint", .str (config.resource_url ++ "/oauth/authorize"))
    , ("token_endpoint", .str (config.resource_url ++ "/oauth/token"))
    , ("registration_endpoint", .str (config.resource_url ++ "/oauth/register"))
    , ("jwks_uri", .str config.keycloak_jwks_url)
    , ("response_types_supported", .arr [.str "code"])
    , ("grant_types_supported", .arr [.str "authorization_code", .str "refresh_token"])
    , ("code_challenge_methods_supported", .arr [.str "S256"])
    , ("token_endpoint_auth_methods_supported", .arr [.str "none"])
    , ("scopes_supported",
        .arr [.str "openid", .str "profile", .str "email", .str "offline_access"])
    , ("subject_types_supported", .arr [.str "public"])
    , ("id_token_signing_alg_values_supported", .arr [.str "RS256"])
    , ("claims_supported",
        .arr [.str "sub", .str "iss", .str "aud", .str "exp", .str "iat",
              .str "email", .str "email_verified", .str "name",
              .str "preferred_username"])
    , ("resource_parameter_supported", .bool true)
    , ("service_documentation", .str (config.resource_url ++ "/docs"))
    ]
  { status_code := 200, body := .json metadata }

/-- The `/.well-known/oauth-protected-resource` handler (RFC 9728 metadata). -/
def protected_resource_metadata (config : OAuthRouterConfig) (_request : Request) :
    HttpResponse :=
  let metadata : Json := .obj
    [ ("resource", .str (config.resource_url ++ "/mcp"))
    , ("authorization_servers", .arr [.str config.resource_url])
    , ("bearer_methods_supported", .arr [.str "header"])
    , ("resource_signing_alg_values_supported", .arr [.str "RS256"])
    , ("scopes_supported", .arr [.str "openid", .str "profile", .str "email"])
    , ("resource_documentation", .str (config.resource_url ++ "/docs"))
    , ("mcp_endpoints", .arr [.str (config.resource_url ++ "/mcp")])
    ]
  { status_code := 200, body := .json metadata }

/-- One insertion step of Python `dict(pairs)`: a repeated key keeps its original
position but takes the new value; a fresh key is appended. -/
def dictStep (acc : List (String × String)) (kv : String × String) :
    List (String × String) :=
  if acc.any (fun p => p.1 == kv.1) then
    acc.map (fun p => if p.1 == kv.1 then (p.1, kv.2) else p)
  else
    acc ++ [kv]

/-- Python `dict(pairs)` on a list of key/value pairs: insertion order of first
occurrences is kept; a repeated key keeps its original position but takes the last
value.  This is what `dict(request.query_params)` computes from the multi-dict of
parsed query parameters. -/
def dictOfPairs (ps : List (String × String)) : List (String × String) :=
  ps.foldl dictStep []

/-- The `"&".join(f"{k}={v}" ...)` rebuild of the query string: each pair becomes
`k=v` with no re-encoding, joined by `&`. -/
def joinParams (ps : List (String × String)) : String :=
  String.intercalate "&" (ps.map (fun p => p.1 ++ "=" ++ p.2))

/-- The `/oauth/authorize` handler: a 302 `RedirectResponse` to the Keycloak
authorization endpoint with the rebuilt query string.  `query_params` is the parsed
(percent-decoded) multi-dict of the request's query parameters in request order. -/
def authorize (config : OAuthRouterConfig) (query_params : List (String × String)) :
    HttpResponse :=
  let params_str := joinParams (dictOfPairs query_params)
  let keycloak_url := config.keycloak_auth_url ++ "?" ++ params_str
  { status_code := 302, body := .raw "", headers := [("location", keycloak_url)] }

/-- The `/oauth/token` handler: forwards the parsed form fields to the Keycloak token
endpoint with a 30-second timeout; relays the upstream status and body verbatim; on
`httpx.RequestError` answers 502 with a `server_error` JSON body carrying the
exception text. -/
def token (config : OAuthRouterConfig) (post : PostOracle)
    (form_dict : List (String × String)) : HttpResponse :=
  match post config.keycloak_token_url form_dict
      [("Content-Type", "application/x-www-form-urlencoded")] 30 with
  | .success s content => { status_code := s, body := .raw content }
  | .requestError e =>
      { status_code := 502
      , body := .json (.obj [("error", .str "server_error"),
                             ("error_description", .str e)]) }

/-- The `/oauth/register` handler (RFC 7591).  `body` is the outcome of
`await request.json()`: `none` when the body is not valid JSON (the parse raises).
When the parsed value is not a JSON object, the Python `body.get` calls raise
`AttributeError`; both exceptions land in the same `except` branch, answering 400
`invalid_client_metadata` with the exception text (abstracted here to a fixed
message per failure). -/
def register (config : OAuthRouterConfig) (body : Option Json) : HttpResponse :=
  let failure (e : String) : HttpResponse :=
    { status_code := 400
    , body := .json (.obj [("error", .str "invalid_client_metadata"),
                           ("error_description", .str e)])
    , headers := [("Access-Control-Allow-Origin", "*")] }
  match body with
  | none => failure "JSON decode error"
  | some parsed =>
    match parsed with
    | .obj fields =>
        let client_name := getOr fields "client_name" (.str "MCP Client")
        let redirect_uris := getOr fields "redirect_uris" (.arr [])
        let response_data : Json := .obj
          [ ("client_id", .str config.keycloak_client_id)
          , ("client_secret", .str "")
          , ("client_name", client_name)
          , ("redirect_uris", redirect_uris)
          , ("grant_types", .arr [.str "authorization_code", .str "refresh_token"])
          , ("response_types", .arr [.str "code"])
          , ("token_endpoint_auth_method", .str "none")
          , ("application_type", .str "web")
          ]
        { status_code := 201
        , body := .json response_data
        , headers := [("Access-Control-Allow-Origin", "*"),
                      ("Cache-Control", "no-store")] }
    | _ => failure "AttributeError"

/-- The `/oauth/userinfo` handler: requires a truthy `Authorization` header starting
with `Bearer `; otherwise 401 before any upstream call.  With a well-formed header,
forwards it to the Keycloak userinfo endpoint with a 30-second timeout and relays
status and body verbatim; on `httpx.RequestError` answers 502 with an `error`-only
JSON body. -/
def userinfo (config : OAuthRouterConfig) (get : GetOracle)
    (auth_header : Option String) : HttpResponse :=
  if !(pyTruthy auth_header) ||
      !(strStartsWith (auth_header.getD "") "Bearer ") then
    { status_code := 401, body := .json (.obj [("error", .str "invalid_token")]) }
  else
    match get config.keycloak_userinfo_url
        [("Authorization", auth_header.getD "")] 30 with
    | .success s content => { status_code := s, body := .raw content }
    | .requestError _ =>
        { status_code := 502
        , body := .json (.obj [("error", .str "server_error")]) }

/-- The shared `OPTIONS` CORS preflight handler for the mutating OAuth routes. -/
def oauth_options : HttpResponse :=
  { status_code := 200
  , body := .raw ""
  , headers := [("Access-Control-Allow-Origin", "*"),
                ("Access-Control-Allow-Methods", "GET, POST, OPTIONS"),
                ("Access-Control-Allow-Headers", "Content-Type, Authorization")] }

/-- One inbound OAuth-gateway request, dispatched by route. -/
inductive GatewayRequest where
  | wellKnownAuthServer (req : Request) : GatewayRequest
  | wellKnownProtectedResource (req : Request) : GatewayRequest
  | authorizeGet (query_params : List (String × String)) : GatewayRequest
  | tokenPost (form_dict : List (String × String)) : GatewayRequest
  | registerPost (body : Option Json) : GatewayRequest
  | userinfoGet (auth_header : Option String) : GatewayRequest
  | optionsPreflight : GatewayRequest

/-- The router as a whole: dispatches a gateway request to its handler.  The result
pairs the response with the configuration the handler leaves behind; no Python
handler assigns to `config` (they only read it), so each branch returns it
unchanged. -/
def handleRequest (config : OAuthRouterConfig) (post : PostOracle) (get : GetOracle) :
    GatewayRequest → HttpResponse × OAuthRouterConfig
  | .wellKnownAuthServer req => (authorization_server_metadata config req, config)
  | .wellKnownProtectedResource req => (protected_resource_metadata config req, config)
  | .authorizeGet qs => (authorize config qs, config)
  | .tokenPost form_dict => (token config post form_dict, config)
  | .registerPost body => (register config body, config)
  | .userinfoGet h => (userinfo config get h, config)
  | .optionsPreflight => (oauth_options, config)

/-- Field access on a response body: `none` for raw (relayed) bodies. -/
def Body.fieldOf : Body → String → Option Json
  | .json j, k => j.getField k
  | .raw _, _ => none

/-- Modelled from the spec: the Protocol Dispatcher lives in `protocol.py` and
`server.py`, which are not among the provided source files (only `oauth.py` is).
Spec section 4.2 describes its state machine: state Uninitialized (here `uninit`)
moves to Initialized (here `ready`) exactly on a successful `initialize` call. -/
inductive DispatcherState where
  | uninit : DispatcherState
  | ready : DispatcherState
deriving DecidableEq, Repr

/-- Outcome of dispatching one JSON-RPC request: a successful result for the given
method, or a JSON-RPC error with the given code. -/
inductive JsonRpcOutcome where
  | result (method : String) : JsonRpcOutcome
  | err (code : Int) : JsonRpcOutcome
deriving DecidableEq, Repr

/-- Modelled from the spec: the protocol-level liveness check exempt from the
initialization gate (the MCP `ping` method). -/
def isLivenessMethod (method : String) : Bool :=
  method == "ping"

/-- Modelled from the spec: the method set the dispatcher routes once the session
is in the Initialized state (tool enumeration, tool invocation, liveness). -/
def knownMethods : List String :=
  ["tools/list", "tools/call", "ping"]

/-- Modelled from the spec: the Protocol Dispatcher's handling of one JSON-RPC
request, per spec section 4.2.  `initOk` abstracts whether version and capability
negotiation succeeds (its failure yields -32600).  In state `uninit`, every method
except `initialize` and the liveness check is rejected with -32002 and the state is
unchanged; a successful `initialize` moves the state to `ready`.  In state `ready`,
known methods are routed and unknown methods yield -32601. -/
def dispatch (st : DispatcherState) (method : String) (initOk : Bool) :
    JsonRpcOutcome × DispatcherState :=
  match st with
  | .uninit =>
    if method == "initialize" then
      if initOk then (.result method, .ready) else (.err (-32600), .uninit)
    else if isLivenessMethod method then (.result method, .uninit)
    else (.err (-32002), .uninit)
  | .ready =>
    if method == "initialize" || knownMethods.contains method then
      (.result method, .ready)
    else (.err (-32601), .ready)

/-- A concrete configuration used by witnesses and counterexamples. -/
def cfgW : OAuthRouterConfig :=
  { resource_url := "https://app.example.com"
  , keycloak_url := "https://auth.example.com"
  , keycloak_realm := "originate"
  , keycloak_client_id := "originate-api"
  , service_name := "Example Service" }

/-- An upstream post oracle that always answers 200 with a fixed body. -/
def postOkW : PostOracle := fun _ _ _ _ => .success 200 "tokenpayload"

/-- An upstream post oracle that always fails with a transport error. -/
def postFailW : PostOracle := fun _ _ _ _ => .requestError "connect timeout"

/-- An upstream get oracle that always answers 200 with a fixed body. -/
def getOkW : GetOracle := fun _ _ _ => .success 200 "userpayload"

/-- An upstream get oracle that always fails with a transport error. -/
def getFailW : GetOracle := fun _ _ _ => .requestError "connect timeout"

/-- A concrete inbound request object. -/
def reqW : Request := {}

/-- Folding `dictStep` over pairs whose keys are fresh for the accumulator and
pairwise distinct just appends them in order. -/
lemma dictFold_fresh (ps : List (String × String)) :
    ∀ acc : List (String × String),
    (∀ q ∈ acc, ∀ p ∈ ps, q.1 ≠ p.1) →
    (ps.map Prod.fst).Nodup →
    List.foldl dictStep acc ps = acc ++ ps := by
  induction ps with
  | nil => intro acc _ _; simp
  | cons kv rest ih =>
    intro acc hdisj hnodup
    have hmapcons : ((kv :: rest).map Prod.fst) = kv.1 :: rest.map Prod.fst := by
      simp
    rw [hmapcons, List.nodup_cons] at hnodup
    have hany : acc.any (fun p => p.1 == kv.1) = false := by
      rw [List.any_eq_false]
      intro q hq
      simp only [beq_iff_eq]
      exact hdisj q hq kv (List.mem_cons_self kv rest)
    have hstep : dictStep acc kv = acc ++ [kv] := by
      simp [dictStep, hany]
    rw [List.foldl_cons, hstep,
        ih (acc ++ [kv]) ?_ hnodup.2]
    · simp
    · intro q hq p hp
      rcases List.mem_append.mp hq with h | h
      · exact hdisj q h p (List.mem_cons_of_mem kv hp)
      · have hqkv : q = kv := by simpa using h
        subst hqkv
        intro hEq
        exact hnodup.1 (hEq ▸ List.mem_map_of_mem Prod.fst hp)

/-- `dict(pairs)` is the identity on pair lists with pairwise-distinct keys. -/
lemma dictOfPairs_nodup (ps : List (String × String))
    (h : (ps.map Prod.fst).Nodup) : dictOfPairs ps = ps := by
  simpa [dictOfPairs] using dictFold_fresh ps [] (by simp) h

/-- C1: for every POST /oauth/token request, an upstream answer `(s, b)` is relayed
as exactly status `s` with body `b` byte-for-byte; a network failure
(`httpx.RequestError`: timeout, connection refused) yields HTTP 502 with a JSON body
whose `error` field is `"server_error"`, and in no network-failure case is the
status 200. -/
theorem c1_token_proxy_relay (config : OAuthRouterConfig) (post : PostOracle)
    (form_dict : List (String × String)) :
    (∀ s b, post config.keycloak_token_url form_dict
        [("Content-Type", "application/x-www-form-urlencoded")] 30 =
          .success s b →
      token config post form_dict = { status_code := s, body := .raw b }) ∧
    (∀ e, post config.keycloak_token_url form_dict
        [("Content-Type", "application/x-www-form-urlencoded")] 30 =
          .requestError e →
      (token config post form_dict).status_code = 502 ∧
      (token config post form_dict).body.fieldOf "error" =
        some (.str "server_error") ∧
      (token config post form_dict).status_code ≠ 200) := by
  constructor
  · intro s b h
    simp [token, h]
  · intro e h
    refine ⟨by simp [token, h], ?_, by simp [token, h]⟩
    simp [token, h, Body.fieldOf, Json.getField, lookupField]

/-- C1 witness: at a concrete configuration, a 200-answering upstream is relayed
verbatim and an unreachable upstream yields 502. -/
theorem c1_token_proxy_relay_witness :
    token cfgW postOkW [("grant_type", "authorization_code")] =
      { status_code := 200, body := .raw "tokenpayload" } ∧
    (token cfgW postFailW [("grant_type", "authorization_code")]).status_code
      = 502 := by
  refine ⟨?_, ?_⟩
  · exact (c1_token_proxy_relay cfgW postOkW
      [("grant_type", "authorization_code")]).1 200 "tokenpayload" rfl
  · exact ((c1_token_proxy_relay cfgW postFailW
      [("grant_type", "authorization_code")]).2 "connect timeout" rfl).1

/-- C2 counterexample: the body `[]` parses as JSON, yet registration answers 400
`invalid_client_metadata` instead of 201 — in Python, `body.get` on a parsed JSON
array raises `AttributeError`, which lands in the same except branch as a parse
failure.  So a parsable body is not always a 201, and an unparsable body is not the
only failure mode. -/
theorem c2_register_counterexample :
    (register cfgW (some (Json.arr []))).status_code = 400 ∧
    (register cfgW (some (Json.arr []))).status_code ≠ 201 ∧
    (register cfgW (some (Json.arr []))).body.fieldOf "error" =
      some (Json.str "invalid_client_metadata") := by
  refine ⟨rfl, by decide, rfl⟩

/-- C2 (amended): for every request whose body parses as a JSON object, the response
is 201 with `client_id` the configured shared id, empty `client_secret`,
`token_endpoint_auth_method` "none", and any caller-submitted `client_name` and
`redirect_uris` echoed unchanged; an unparsable body and a body parsing to a
non-object JSON value both yield 400 `invalid_client_metadata`. -/
theorem c2_register_fixed_client (config : OAuthRouterConfig)
    (fields : List (String × Json)) :
    (register config (some (.obj fields))).status_code = 201 ∧
    (register config (some (.obj fields))).body.fieldOf "client_id" =
      some (.str config.keycloak_client_id) ∧
    (register config (some (.obj fields))).body.fieldOf "client_secret" =
      some (.str "") ∧
    (register config (some (.obj fields))).body.fieldOf
      "token_endpoint_auth_method" = some (.str "none") ∧
    (∀ v, lookupField fields "client_name" = some v →
      (register config (some (.obj fields))).body.fieldOf "client_name" = some v) ∧
    (∀ v, lookupField fields "redirect_uris" = some v →
      (register config (some (.obj fields))).body.fieldOf "redirect_uris" = some v) ∧
    (register config none).status_code = 400 ∧
    (register config none).body.fieldOf "error" =
      some (.str "invalid_client_metadata") ∧
    (∀ j : Json, j.isObj = false →
      (register config (some j)).status_code = 400 ∧
      (register config (some j)).body.fieldOf "error" =
        some (.str "invalid_client_metadata")) := by
  refine ⟨?_, ?_, ?_, ?_, ?_, ?_, ?_, ?_, ?_⟩
  · simp [register]
  · simp [register, Body.fieldOf, Json.getField, lookupField]
  · simp [register, Body.fieldOf, Json.getField, lookupField]
  · simp [register, Body.fieldOf, Json.getField, lookupField]
  · intro v hv
    simp [register, Body.fieldOf, Json.getField, lookupField, getOr, hv]
  · intro v hv
    simp [register, Body.fieldOf, Json.getField, lookupField, getOr, hv]
  · simp [register]
  · simp [register, Body.fieldOf, Json.getField, lookupField]
  · intro j hj
    cases j <;>
      simp_all [register, Json.isObj, Body.fieldOf, Json.getField, lookupField]

/-- C2 witness: at the concrete configuration, the spec's example body registers as
201 with the shared client id, empty secret and the name and redirect URIs echoed,
and a JSON string body lands in the 400 branch. -/
theorem c2_register_fixed_client_witness :
    (register cfgW (some (.obj [("client_name", Json.str "X"),
      ("redirect_uris", Json.arr [Json.str "https://a/cb"])]))).status_code = 201 ∧
    (register cfgW (some (.obj [("client_name", Json.str "X"),
      ("redirect_uris", Json.arr [Json.str "https://a/cb"])]))).body.fieldOf
        "client_name" = some (Json.str "X") ∧
    (register cfgW (some (.obj [("client_name", Json.str "X"),
      ("redirect_uris", Json.arr [Json.str "https://a/cb"])]))).body.fieldOf
        "redirect_uris" = some (Json.arr [Json.str "https://a/cb"]) ∧
    (register cfgW (some (Json.str "nope"))).status_code = 400 := by
  obtain ⟨h1, _, _, _, h5, h6, _, _, h9⟩ :=
    c2_register_fixed_client cfgW [("client_name", Json.str "X"),
      ("redirect_uris", Json.arr [Json.str "https://a/cb"])]
  exact ⟨h1, h5 (Json.str "X") rfl,
    h6 (Json.arr [Json.str "https://a/cb"]) rfl, (h9 (Json.str "nope") rfl).1⟩

/-- C10 counterexample: the body `"hello"` parses as JSON and (being a string)
submits neither `client_name` nor `redirect_uris`, yet the response is 400, not the
201-with-defaults the claim asserts for every parseable body. -/
theorem c10_register_counterexample :
    (register cfgW (some (Json.str "hello"))).status_code = 400 ∧
    (register cfgW (some (Json.str "hello"))).status_code ≠ 201 ∧
    (register cfgW (some (Json.str "hello"))).body.fieldOf "error" =
      some (Json.str "invalid_client_metadata") := by
  refine ⟨rfl, by decide, rfl⟩

/-- C10 (amended): for every request whose body parses as a JSON object omitting
`client_name` or `redirect_uris`, the response is still 201 with `client_name`
defaulting to "MCP Client" and `redirect_uris` defaulting to the empty list; a body
parsing to a JSON object never reaches the 400 `invalid_client_metadata` branch. -/
theorem c10_register_defaults (config : OAuthRouterConfig)
    (fields : List (String × Json))
    (hname : lookupField fields "client_name" = none)
    (huris : lookupField fields "redirect_uris" = none) :
    (register config (some (.obj fields))).status_code = 201 ∧
    (register config (some (.obj fields))).body.fieldOf "client_name" =
      some (.str "MCP Client") ∧
    (register config (some (.obj fields))).body.fieldOf "redirect_uris" =
      some (.arr []) ∧
    (∀ fs : List (String × Json),
      (register config (some (.obj fs))).status_code = 201) := by
  refine ⟨?_, ?_, ?_, ?_⟩
  · simp [register]
  · simp [register, Body.fieldOf, Json.getField, lookupField, getOr, hname]
  · simp [register, Body.fieldOf, Json.getField, lookupField, getOr, huris]
  · intro fs
    simp [register]

/-- C10 witness: the empty JSON object registers as 201 with both defaults. -/
theorem c10_register_defaults_witness :
    (register cfgW (some (.obj []))).status_code = 201 ∧
    (register cfgW (some (.obj []))).body.fieldOf "client_name" =
      some (Json.str "MCP Client") ∧
    (register cfgW (some (.obj []))).body.fieldOf "redirect_uris" =
      some (Json.arr []) := by
  obtain ⟨h1, h2, h3, _⟩ := c10_register_defaults cfgW [] rfl rfl
  exact ⟨h1, h2, h3⟩

/-- C3: a missing Authorization header, or one not starting with "Bearer ", yields
401 with a response independent of the upstream oracle (so no upstream call can
influence it); a well-formed bearer header is forwarded to the upstream userinfo
endpoint and the upstream status and body are relayed verbatim. -/
theorem c3_userinfo_bearer_gate (config : OAuthRouterConfig) (get : GetOracle)
    (h : Option String) :
    ((h = none ∨ strStartsWith (h.getD "") "Bearer " = false) →
      userinfo config get h =
        { status_code := 401
        , body := .json (.obj [("error", .str "invalid_token")]) } ∧
      (∀ get2 : GetOracle, userinfo config get2 h = userinfo config get h)) ∧
    (∀ hv s b, h = some hv → strStartsWith hv "Bearer " = true →
      get config.keycloak_userinfo_url [("Authorization", hv)] 30 =
        .success s b →
      userinfo config get h = { status_code := s, body := .raw b }) := by
  constructor
  · intro hbad
    rcases hbad with rfl | hsw
    · exact ⟨by simp [userinfo, pyTruthy], fun get2 => by simp [userinfo, pyTruthy]⟩
    · exact ⟨by simp [userinfo, hsw], fun get2 => by simp [userinfo, hsw]⟩
  · intro hv s b hh hsw hget
    subst hh
    by_cases hc : hv = ""
    · subst hc
      simp [strStartsWith] at hsw
    · simp [userinfo, pyTruthy, hc, hsw, hget]

/-- C3 witness: with no Authorization header the concrete gateway answers 401 even
though the oracle would answer 200, and with a bearer header the upstream answer is
relayed verbatim. -/
theorem c3_userinfo_bearer_gate_witness :
    userinfo cfgW getOkW none =
      { status_code := 401
      , body := .json (.obj [("error", Json.str "invalid_token")]) } ∧
    userinfo cfgW getOkW (some "Bearer tok") =
      { status_code := 200, body := Body.raw "userpayload" } := by
  refine ⟨((c3_userinfo_bearer_gate cfgW getOkW none).1 (Or.inl rfl)).1, ?_⟩
  exact (c3_userinfo_bearer_gate cfgW getOkW (some "Bearer tok")).2
    "Bearer tok" 200 "userpayload" rfl rfl rfl

/-- Appending to a string preserves any of its leading substrings. -/
lemma strStartsWith_append (a b : String) : strStartsWith (a ++ b) a = true := by
  simp [strStartsWith, String.data_append, List.isPrefixOf_iff_prefix]

/-- A leading substring of `s` is a leading substring of `s ++ t`. -/
lemma strStartsWith_trans_append (a s t : String)
    (h : strStartsWith s a = true) : strStartsWith (s ++ t) a = true := by
  simp only [strStartsWith, String.data_append,
    List.isPrefixOf_iff_prefix] at h ⊢
  exact h.trans (List.prefix_append s.data t.data)

/-- A concatenation whose right part is non-empty is non-empty. -/
lemma strLen_pos_of_right (a b : String) (h : 0 < b.length) :
    0 < (a ++ b).length := by
  rw [String.length_append]; omega

/-- A concatenation whose left part is non-empty is non-empty. -/
lemma strLen_pos_of_left (a b : String) (h : 0 < a.length) :
    0 < (a ++ b).length := by
  rw [String.length_append]; omega

/-- C4 counterexample: at a configuration whose upstream Keycloak URL differs from
the resource URL, the discovery document's issuer is the Keycloak realm base URL,
which is not a URL under the configured resource_url as the claim asserts. -/
theorem c4_issuer_counterexample :
    (authorization_server_metadata cfgW reqW).body.fieldOf "issuer" =
      some (Json.str "https://auth.example.com/realms/originate") ∧
    strStartsWith "https://auth.example.com/realms/originate"
      cfgW.resource_url = false := by
  refine ⟨rfl, by decide⟩

/-- C4 (amended): for every configuration, the discovery document carries non-empty
issuer, authorization_endpoint, token_endpoint and jwks_uri; the
authorization/token/registration endpoints are URLs under the configured
resource_url, while the issuer — the upstream Keycloak realm base — and the
jwks_uri are URLs under the upstream provider's keycloak_url, not this service's. -/
theorem c4_metadata_fields (config : OAuthRouterConfig) (req : Request) :
    (authorization_server_metadata config req).status_code = 200 ∧
    (authorization_server_metadata config req).body.fieldOf "issuer" =
      some (.str config.keycloak_base) ∧
    0 < config.keycloak_base.length ∧
    strStartsWith config.keycloak_base config.keycloak_url = true ∧
    (authorization_server_metadata config req).body.fieldOf
      "authorization_endpoint" =
      some (.str (config.resource_url ++ "/oauth/authorize")) ∧
    0 < (config.resource_url ++ "/oauth/authorize").length ∧
    strStartsWith (config.resource_url ++ "/oauth/authorize")
      config.resource_url = true ∧
    (authorization_server_metadata config req).body.fieldOf "token_endpoint" =
      some (.str (config.resource_url ++ "/oauth/token")) ∧
    0 < (config.resource_url ++ "/oauth/token").length ∧
    strStartsWith (config.resource_url ++ "/oauth/token")
      config.resource_url = true ∧
    (authorization_server_metadata config req).body.fieldOf
      "registration_endpoint" =
      some (.str (config.resource_url ++ "/oauth/register")) ∧
    strStartsWith (config.resource_url ++ "/oauth/register")
      config.resource_url = true ∧
    (authorization_server_metadata config req).body.fieldOf "jwks_uri" =
      some (.str config.keycloak_jwks_url) ∧
    0 < config.keycloak_jwks_url.length ∧
    strStartsWith config.keycloak_jwks_url config.keycloak_url = true := by
  have hbase : strStartsWith config.keycloak_base config.keycloak_url = true := by
    simp only [OAuthRouterConfig.keycloak_base]
    exact strStartsWith_trans_append config.keycloak_url
      (config.keycloak_url ++ "/realms/") config.keycloak_realm
      (strStartsWith_append config.keycloak_url "/realms/")
  have hbaselen : 0 < config.keycloak_base.length := by
    simp only [OAuthRouterConfig.keycloak_base]
    exact strLen_pos_of_left (config.keycloak_url ++ "/realms/")
      config.keycloak_realm
      (strLen_pos_of_right config.keycloak_url "/realms/" (by decide))
  refine ⟨rfl, rfl, hbaselen, hbase, rfl,
    strLen_pos_of_right config.resource_url "/oauth/authorize" (by decide),
    strStartsWith_append config.resource_url "/oauth/authorize", rfl,
    strLen_pos_of_right config.resource_url "/oauth/token" (by decide),
    strStartsWith_append config.resource_url "/oauth/token", rfl,
    strStartsWith_append config.resource_url "/oauth/register", rfl, ?_, ?_⟩
  · simp only [OAuthRouterConfig.keycloak_jwks_url]
    exact strLen_pos_of_right config.keycloak_base
      "/protocol/openid-connect/certs" (by decide)
  · simp only [OAuthRouterConfig.keycloak_jwks_url]
    exact strStartsWith_trans_append config.keycloak_url config.keycloak_base
      "/protocol/openid-connect/certs" hbase

/-- C5 counterexample: a request with the repeated query key `a` (values `1` then
`2`) is redirected with query `a=2` — the pair `("a", "1")` is stripped by the
`dict(request.query_params)` conversion, so not all parameters are carried
unmodified. -/
theorem c5_authorize_counterexample :
    (authorize cfgW [("a", "1"), ("a", "2")]).headers =
      [("location", cfgW.keycloak_auth_url ++ "?" ++ "a=2")] ∧
    joinParams [("a", "1"), ("a", "2")] = "a=1&a=2" ∧
    (cfgW.keycloak_auth_url ++ "?" ++ "a=2") ≠
      (cfgW.keycloak_auth_url ++ "?" ++ "a=1&a=2") := by
  refine ⟨rfl, rfl, by decide⟩

/-- C5 (amended): every GET /oauth/authorize request is answered with a 302
redirect to the upstream authorization endpoint whose query joins the `k=v` pairs of
the Python-dict collapse of the request's parameters (a repeated key keeps one
entry, with the last value, and values are not re-encoded); in particular, whenever
the parameter keys are pairwise distinct, all parameters are carried unmodified in
request order. -/
theorem c5_authorize_redirect (config : OAuthRouterConfig)
    (query_params : List (String × String)) :
    authorize config query_params =
      { status_code := 302, body := .raw ""
      , headers := [("location", config.keycloak_auth_url ++ "?" ++
          joinParams (dictOfPairs query_params))] } ∧
    ((query_params.map Prod.fst).Nodup →
      authorize config query_params =
        { status_code := 302, body := .raw ""
        , headers := [("location", config.keycloak_auth_url ++ "?" ++
            joinParams query_params)] }) := by
  constructor
  · rfl
  · intro h
    simp [authorize, dictOfPairs_nodup query_params h]

/-- C5 witness: a PKCE-style parameter list with distinct keys is forwarded in
order and unmodified. -/
theorem c5_authorize_redirect_witness :
    authorize cfgW [("client_id", "abc"), ("state", "xyz")] =
      { status_code := 302, body := Body.raw ""
      , headers := [("location", cfgW.keycloak_auth_url ++ "?" ++
          joinParams [("client_id", "abc"), ("state", "xyz")])] } := by
  exact (c5_authorize_redirect cfgW
    [("client_id", "abc"), ("state", "xyz")]).2 (by decide)

/-- C6 counterexample: on an upstream network failure the userinfo proxy answers a
502 JSON body holding only an `error` field — it has no `error_description` field,
though the claim asserts both fields for every OAuth proxy endpoint. -/
theorem c6_userinfo_counterexample :
    (userinfo cfgW getFailW (some "Bearer tok")).status_code = 502 ∧
    (userinfo cfgW getFailW (some "Bearer tok")).body.fieldOf "error" =
      some (Json.str "server_error") ∧
    (userinfo cfgW getFailW (some "Bearer tok")).body.fieldOf
      "error_description" = none := by
  refine ⟨rfl, rfl, rfl⟩

/-- C6 (amended): an upstream network failure on either proxy produces a normal 502
response whose JSON body uses the OAuth error vocabulary with `error` set to
`server_error`; the token proxy's body also carries `error_description` (the
exception text), while the userinfo proxy's body carries only the `error` field. -/
theorem c6_upstream_error_vocabulary (config : OAuthRouterConfig)
    (post : PostOracle) (get : GetOracle)
    (form_dict : List (String × String)) (hv e : String) :
    (post config.keycloak_token_url form_dict
        [("Content-Type", "application/x-www-form-urlencoded")] 30 =
          .requestError e →
      (token config post form_dict).status_code = 502 ∧
      (token config post form_dict).body.fieldOf "error" =
        some (.str "server_error") ∧
      (token config post form_dict).body.fieldOf "error_description" =
        some (.str e)) ∧
    (strStartsWith hv "Bearer " = true →
      get config.keycloak_userinfo_url [("Authorization", hv)] 30 =
        .requestError e →
      (userinfo config get (some hv)).status_code = 502 ∧
      (userinfo config get (some hv)).body.fieldOf "error" =
        some (.str "server_error") ∧
      (userinfo config get (some hv)).body.fieldOf "error_description" =
        none) := by
  constructor
  · intro h
    refine ⟨by simp [token, h], ?_, ?_⟩ <;>
      simp [token, h, Body.fieldOf, Json.getField, lookupField]
  · intro hsw hget
    by_cases hc : hv = ""
    · subst hc
      simp [strStartsWith] at hsw
    · refine ⟨?_, ?_, ?_⟩ <;>
        simp [userinfo, pyTruthy, hc, hsw, hget, Body.fieldOf, Json.getField,
          lookupField]

/-- C6 witness: at the concrete configuration with failing oracles, the token
proxy's 502 body carries the exception text as error_description and the userinfo
proxy also answers 502. -/
theorem c6_upstream_error_vocabulary_witness :
    (token cfgW postFailW []).status_code = 502 ∧
    (token cfgW postFailW []).body.fieldOf "error_description" =
      some (Json.str "connect timeout") ∧
    (userinfo cfgW getFailW (some "Bearer abc")).status_code = 502 := by
  obtain ⟨ht, hu⟩ := c6_upstream_error_vocabulary cfgW postFailW getFailW []
    "Bearer abc" "connect timeout"
  obtain ⟨h1, _, h3⟩ := ht rfl
  exact ⟨h1, h3, (hu rfl rfl).1⟩

/-- C7 (spec-modelled): while the dispatcher is Uninitialized, every method other
than `initialize` and the liveness check is rejected with -32002 and the state is
unchanged; the state moves to Initialized only on a successful `initialize`; in
particular the tool methods are rejected with -32002 before initialization. -/
theorem c7_dispatcher_init_gate (m : String) (b : Bool) :
    (m ≠ "initialize" → isLivenessMethod m = false →
      dispatch .uninit m b = (.err (-32002), .uninit)) ∧
    ((dispatch .uninit m b).2 = .ready → m = "initialize" ∧ b = true) ∧
    dispatch .uninit "tools/call" b = (.err (-32002), .uninit) ∧
    dispatch .uninit "tools/list" b = (.err (-32002), .uninit) ∧
    dispatch .uninit "initialize" true = (.result "initialize", .ready) := by
  refine ⟨?_, ?_, rfl, rfl, rfl⟩
  · intro hne hlive
    simp [dispatch, hne, hlive]
  · intro h
    by_cases hm : m = "initialize"
    · subst hm
      cases b
      · simp [dispatch] at h
      · exact ⟨rfl, rfl⟩
    · by_cases hl : isLivenessMethod m = true
      · simp [dispatch, hm, hl] at h
      · simp [dispatch, hm, hl] at h

/-- C7 witness: invoking the tool method `tools/call` in the Uninitialized state is
rejected with -32002 and leaves the state Uninitialized. -/
theorem c7_dispatcher_init_gate_witness :
    dispatch DispatcherState.uninit "tools/call" false =
      (JsonRpcOutcome.err (-32002), DispatcherState.uninit) := by
  exact (c7_dispatcher_init_gate "tools/call" false).1 (by decide) rfl

/-- C8: both proxies consult the upstream oracle only at the explicit 30-second
timeout (two oracles agreeing at timeout 30 produce identical responses), and a
transport failure at that timeout yields the distinct 502 upstream-unavailable
response instead of hanging. -/
theorem c8_upstream_timeout (config : OAuthRouterConfig)
    (form_dict : List (String × String)) (hv : String)
    (post post2 : PostOracle) (get get2 : GetOracle) :
    ((∀ url d hs, post url d hs 30 = post2 url d hs 30) →
      token config post form_dict = token config post2 form_dict) ∧
    ((∀ url hs, get url hs 30 = get2 url hs 30) →
      userinfo config get (some hv) = userinfo config get2 (some hv)) ∧
    (∀ e, post config.keycloak_token_url form_dict
        [("Content-Type", "application/x-www-form-urlencoded")] 30 =
          .requestError e →
      (token config post form_dict).status_code = 502) ∧
    (∀ e, strStartsWith hv "Bearer " = true →
      get config.keycloak_userinfo_url [("Authorization", hv)] 30 =
        .requestError e →
      (userinfo config get (some hv)).status_code = 502) := by
  refine ⟨?_, ?_, ?_, ?_⟩
  · intro hagree
    simp [token, hagree]
  · intro hagree
    simp [userinfo, hagree]
  · intro e h
    simp [token, h]
  · intro e hsw hget
    by_cases hc : hv = ""
    · subst hc
      simp [strStartsWith] at hsw
    · simp [userinfo, pyTruthy, hc, hsw, hget]

/-- C8 witness: with concrete failing oracles both proxies answer 502, and two
oracles equal at timeout 30 give the same token response. -/
theorem c8_upstream_timeout_witness :
    token cfgW postFailW [] = token cfgW postFailW [] ∧
    (token cfgW postFailW []).status_code = 502 ∧
    (userinfo cfgW getFailW (some "Bearer t")).status_code = 502 := by
  obtain ⟨h1, _, h3, h4⟩ := c8_upstream_timeout cfgW [] "Bearer t"
    postFailW postFailW getFailW getFailW
  exact ⟨h1 (fun _ _ _ => rfl), h3 "connect timeout" rfl,
    h4 "connect timeout" rfl rfl⟩

/-- C9: every gateway handler leaves the configuration unchanged (no handler
mutates shared state), and the two well-known metadata endpoints answer identically
for any two requests under the same configuration. -/
theorem c9_stateless_pure (config : OAuthRouterConfig) (post : PostOracle)
    (get : GetOracle) (r : GatewayRequest) (r1 r2 : Request) :
    (handleRequest config post get r).2 = config ∧
    handleRequest config post get (.wellKnownAuthServer r1) =
      handleRequest config post get (.wellKnownAuthServer r2) ∧
    handleRequest config post get (.wellKnownProtectedResource r1) =
      handleRequest config post get (.wellKnownProtectedResource r2) := by
  refine ⟨?_, rfl, rfl⟩
  cases r <;> rfl

end CommonMcpServer
